import Mathlib

/-!
# Verification of the FaunaConnection wrapper (src/FaunaConnection.js)

A shallow embedding of the query-building logic of `FaunaConnection`.
Each wrapper method builds one query expression from its inputs with the
`faunadb.query` primitives (`q.Map`, `q.Paginate`, `q.Match`, ...) and
submits it through `client.query`.  We embed the built expressions as an
inductive AST (`Fauna.Expr`), the duck-typed cursor values accepted by
`getAllDocsByIndex` as `Fauna.CursorVal`, and every wrapper method as a
pure function producing the expression it would submit.  Submission is an
abstract function `Expr → Except ε ρ` standing for the external engine.

JavaScript particulars that matter to the claims are modelled explicitly:
  * `options.size || this.size` uses JS truthiness, so a supplied size of
    `0` falls back to the default (`jsNumOr`);
  * the cursor normalization guard `options.before && options.before.collection`
    is a truthiness probe on the value and on its `collection` field
    (`CursorVal.truthy`, `CursorVal.collectionTruthy`); an empty string in
    the `collection` field is falsy;
  * `getAllDocsByIndex` mutates the caller's `options` object in place; the
    embedding returns the post-call options record alongside the submitted
    expression.
-/

namespace Fauna

/-- Opaque caller-supplied document payload (the JS objects stored under
`data`). The wrapper never inspects documents, so they are modelled as an
opaque type. -/
def Doc : Type := String

/-- Opaque caller-supplied term / value descriptors (the `terms` / `values`
arguments of `createIndex` and the `term` / `scope` options of
`getAllDocsByIndex`). The wrapper passes them through without inspection. -/
def Opaque : Type := String

mutual

/-- Query expressions built via `this.q.*` (the `faunadb.query` builders).
Each constructor mirrors one builder call shape appearing in
`src/FaunaConnection.js`. -/
inductive Expr : Type where
  /-- A literal string argument embedded in an expression. -/
  | Str (s : String)
  /-- `q.Var(name)` -/
  | Var (name : String)
  /-- `q.CreateDatabase({ name })` -/
  | CreateDatabase (name : String)
  /-- `q.CreateKey({ database, role })` -/
  | CreateKey (database : Expr) (role : String)
  /-- `q.Database(name)` -/
  | Database (name : String)
  /-- `q.CreateCollection({ name })` -/
  | CreateCollection (name : String)
  /-- `q.CreateIndex({ name, source, terms, values })`; `none` models the
  `null` defaults. -/
  | CreateIndex (name : String) (source : Expr) (terms : Option Opaque) (values : Option Opaque)
  /-- `q.Collection(name)` -/
  | Collection (name : String)
  /-- `q.Index(name)` / `q.Index(name, scope)`; `none` models an absent
  (`undefined`) scope. -/
  | Index (name : String) (scope : Option Opaque)
  /-- `q.Ref(collection, id)` -/
  | Ref (collection : Expr) (id : Expr)
  /-- `q.Match(index)` / `q.Match(index, term)`; `none` models an absent
  (`undefined`) term. -/
  | Match (index : Expr) (term : Option Opaque)
  /-- `q.Paginate(set, { size, before, after })`; an absent cursor option is
  `CursorVal.undefined`. -/
  | Paginate (set : Expr) (size : Nat) (before : CursorVal) (after : CursorVal)
  /-- `q.Get(e)` -/
  | Get (e : Expr)
  /-- `q.Map(set, ref => q.Get(ref))` — the document-resolution map of
  `getAllDocsByIndex`. -/
  | MapGet (set : Expr)
  /-- `q.Map(docs, q.Lambda('doc', body))` over a literal array of documents
  (`create`). -/
  | MapLambdaDoc (docs : List Doc) (body : Expr)
  /-- `q.Map(touples, q.Lambda(['id','data'], body))` over a literal array of
  `[id, document]` pairs (`createWithCustomID`). -/
  | MapLambdaIdData (touples : List (String × Doc)) (body : Expr)
  /-- `q.Create(ref, { data })` -/
  | Create (ref : Expr) (data : Expr)
  /-- `q.Update(ref, { data })` -/
  | Update (ref : Expr) (data : Doc)
  /-- `q.Replace(ref, { data })` -/
  | Replace (ref : Expr) (data : Doc)
  /-- `q.Delete(ref)` -/
  | Delete (ref : Expr)

/-- A JavaScript value supplied as the `before` / `after` cursor option of
`getAllDocsByIndex`.  Three shapes matter to the code's duck-typing probe
`options.before && options.before.collection`:
  * `undefined` — the field is absent (`undefined`), falsy;
  * `composite c r` — a plain object `{collection: c, ref: r}` (truthy; its
    `collection` field is the string `c`, falsy exactly when empty);
  * `expr e` — a query-expression value, the engine's native reference form
    as produced by `q.Ref` (truthy; an `Expr` object carries no `collection`
    field, so the probe reads `undefined` there). -/
inductive CursorVal : Type where
  | undefined
  | composite (collection : String) (ref : String)
  | expr (e : Expr)

end

/-- JS truthiness of a cursor option value: `undefined` is falsy, any object
is truthy. -/
def CursorVal.truthy : CursorVal → Bool
  | .undefined => false
  | .composite _ _ => true
  | .expr _ => true

/-- JS truthiness of reading `.collection` on a cursor option value: only a
composite object `{collection, ref}` has the field, and the string there is
falsy exactly when empty; on `undefined` or on an `Expr` object the read
yields `undefined`. -/
def CursorVal.collectionTruthy : CursorVal → Bool
  | .composite c _ => c != ""
  | _ => false

/-- The `collection` field of a cursor option value (`""` stands for the
`undefined` read on shapes without the field; only reached under a
`collectionTruthy` guard in the code). -/
def CursorVal.collectionField : CursorVal → String
  | .composite c _ => c
  | _ => ""

/-- The `ref` field of a cursor option value (`""` stands for the
`undefined` read on shapes without the field). -/
def CursorVal.refField : CursorVal → String
  | .composite _ r => r
  | _ => ""

/-- The guard `options.before && options.before.collection` (for either
cursor): value truthy and its `collection` field truthy. -/
def CursorVal.compositeGuard (c : CursorVal) : Bool :=
  c.truthy && c.collectionTruthy

/-- Whether a cursor value is a composite `{collection, ref}` object. -/
def CursorVal.isComposite : CursorVal → Bool
  | .composite _ _ => true
  | _ => false

/-- The options bag accepted by `getAllDocsByIndex` (`options = {}` default).
`none` / `CursorVal.undefined` model absent (`undefined`) fields. -/
structure Options : Type where
  before : CursorVal := .undefined
  after : CursorVal := .undefined
  term : Option Opaque := none
  size : Option Nat := none
  scope : Option Opaque := none

/-- `x || dflt` on a JS number that may be absent: `undefined` and `0` are
falsy and select the default. -/
def jsNumOr (x : Option Nat) (dflt : Nat) : Nat :=
  match x with
  | none => dflt
  | some n => if n = 0 then dflt else n

/-- `this.size`, set to `64` in the constructor. -/
def defaultSize : Nat := 64

/-- `_buildRef(options)`:
`this.q.Ref(this.q.Collection(options.collection), options.ref)`. -/
def buildRef (c : CursorVal) : Expr :=
  .Ref (.Collection c.collectionField) (.Str c.refField)

/-- The in-place cursor rewriting at the top of `getAllDocsByIndex`:
`if (options.before && options.before.collection) { options.before = this._buildRef(options.before) }
else if (options.after && options.after.collection) { options.after = this._buildRef(options.after) }`. -/
def normalizeCursors (o : Options) : Options :=
  if o.before.compositeGuard then
    { o with before := .expr (buildRef o.before) }
  else if o.after.compositeGuard then
    { o with after := .expr (buildRef o.after) }
  else o

/-- `getAllDocsByIndex(index, options = {})`.  Returns the expression handed
to `client.query` together with the post-call state of the caller's
`options` object (which the method mutates in place). -/
def getAllDocsByIndex (index : String) (options : Options := {}) : Expr × Options :=
  let o := normalizeCursors options
  (.MapGet
    (.Paginate
      (.Match (.Index index o.scope) o.term)
      (jsNumOr o.size defaultSize)
      o.before
      o.after),
   o)

/-- The `docs` argument of `create`: a single document object or an array of
documents (the `Array.isArray` distinction). -/
inductive DocsArg : Type where
  | single (d : Doc)
  | array (ds : List Doc)

/-- `const documents = Array.isArray(docs) ? docs : [docs]` in `create`. -/
def DocsArg.toDocuments : DocsArg → List Doc
  | .single d => [d]
  | .array ds => ds

/-- `createDB(name)`: the expression submitted. -/
def createDB (name : String) : Expr :=
  .CreateDatabase name

/-- `createServer(dbName)`: the expression submitted. -/
def createServer (dbName : String) : Expr :=
  .CreateKey (.Database dbName) "server"

/-- `createCollection(name)`: the expression submitted. -/
def createCollection (name : String) : Expr :=
  .CreateCollection name

/-- `createIndex(name, src, terms=null, values=null)`: the expression
submitted. -/
def createIndex (name : String) (src : String)
    (terms : Option Opaque := none) (values : Option Opaque := none) : Expr :=
  .CreateIndex name (.Collection src) terms values

/-- `create(collection, docs)`: the expression submitted. -/
def create (collection : String) (docs : DocsArg) : Expr :=
  .MapLambdaDoc docs.toDocuments
    (.Create (.Collection collection) (.Var "doc"))

/-- `createWithCustomID(collection, touples)`: the expression submitted. -/
def createWithCustomID (collection : String) (touples : List (String × Doc)) : Expr :=
  .MapLambdaIdData touples
    (.Create (.Ref (.Collection collection) (.Var "id")) (.Var "data"))

/-- `get(collection, ref)`: the expression submitted. -/
def get (collection : String) (ref : String) : Expr :=
  .Get (.Ref (.Collection collection) (.Str ref))

/-- `getMatch(index, value)`: the expression submitted. -/
def getMatch (index : String) (value : Opaque) : Expr :=
  .Get (.Match (.Index index none) (some value))

/-- `getAllRefsByIndex(index, size)`: the expression submitted. -/
def getAllRefsByIndex (index : String) (size : Option Nat := none) : Expr :=
  .Paginate (.Match (.Index index none) none) (jsNumOr size defaultSize) .undefined .undefined

/-- `update(collection, ref, data)`: the expression submitted. -/
def update (collection : String) (ref : String) (data : Doc) : Expr :=
  .Update (.Ref (.Collection collection) (.Str ref)) data

/-- `replace(collection, ref, data)`: the expression submitted. -/
def replace (collection : String) (ref : String) (data : Doc) : Expr :=
  .Replace (.Ref (.Collection collection) (.Str ref)) data

/-- `delete(collection, ref)`: the expression submitted. -/
def delete (collection : String) (ref : String) : Expr :=
  .Delete (.Ref (.Collection collection) (.Str ref))

/-- `paginateDB(dbName, size)`: the expression submitted. -/
def paginateDB (dbName : String) (size : Option Nat := none) : Expr :=
  .Paginate (.Database dbName) (jsNumOr size defaultSize) .undefined .undefined

/-- `getDatabase(dbName)`: the expression submitted. -/
def getDatabase (dbName : String) : Expr :=
  .Get (.Database dbName)

/-!
## Submission to the external engine

`client.query` is the external engine's entry point; the wrapper forwards the
built expression and returns the client's promise unchanged.  A resolved or
rejected promise is modelled as `Except ε ρ` and the engine as an abstract
function `Expr → Except ε ρ`.  Every wrapper method body is literally
`return this.client.query(<expr>)`, so each `run*` operation below is the
engine applied to the corresponding built expression — there is no catch,
wrap, retry, or locally generated failure anywhere in the source.
-/

/-- The result of `createDB` as the caller sees it. -/
def runCreateDB {ε ρ : Type} (engine : Expr → Except ε ρ) (name : String) : Except ε ρ :=
  engine (createDB name)

/-- The result of `createServer` as the caller sees it. -/
def runCreateServer {ε ρ : Type} (engine : Expr → Except ε ρ) (dbName : String) : Except ε ρ :=
  engine (createServer dbName)

/-- The result of `createCollection` as the caller sees it. -/
def runCreateCollection {ε ρ : Type} (engine : Expr → Except ε ρ) (name : String) : Except ε ρ :=
  engine (createCollection name)

/-- The result of `createIndex` as the caller sees it. -/
def runCreateIndex {ε ρ : Type} (engine : Expr → Except ε ρ) (name src : String)
    (terms values : Option Opaque) : Except ε ρ :=
  engine (createIndex name src terms values)

/-- The result of `create` as the caller sees it. -/
def runCreate {ε ρ : Type} (engine : Expr → Except ε ρ) (collection : String)
    (docs : DocsArg) : Except ε ρ :=
  engine (create collection docs)

/-- The result of `createWithCustomID` as the caller sees it. -/
def runCreateWithCustomID {ε ρ : Type} (engine : Expr → Except ε ρ) (collection : String)
    (touples : List (String × Doc)) : Except ε ρ :=
  engine (createWithCustomID collection touples)

/-- The result of `get` as the caller sees it. -/
def runGet {ε ρ : Type} (engine : Expr → Except ε ρ) (collection ref : String) : Except ε ρ :=
  engine (get collection ref)

/-- The result of `getMatch` as the caller sees it. -/
def runGetMatch {ε ρ : Type} (engine : Expr → Except ε ρ) (index : String)
    (value : Opaque) : Except ε ρ :=
  engine (getMatch index value)

/-- The result of `getAllRefsByIndex` as the caller sees it. -/
def runGetAllRefsByIndex {ε ρ : Type} (engine : Expr → Except ε ρ) (index : String)
    (size : Option Nat) : Except ε ρ :=
  engine (getAllRefsByIndex index size)

/-- The result of `getAllDocsByIndex` as the caller sees it. -/
def runGetAllDocsByIndex {ε ρ : Type} (engine : Expr → Except ε ρ) (index : String)
    (options : Options) : Except ε ρ :=
  engine (getAllDocsByIndex index options).1

/-- The result of `update` as the caller sees it. -/
def runUpdate {ε ρ : Type} (engine : Expr → Except ε ρ) (collection ref : String)
    (data : Doc) : Except ε ρ :=
  engine (update collection ref data)

/-- The result of `replace` as the caller sees it. -/
def runReplace {ε ρ : Type} (engine : Expr → Except ε ρ) (collection ref : String)
    (data : Doc) : Except ε ρ :=
  engine (replace collection ref data)

/-- The result of `delete` as the caller sees it. -/
def runDelete {ε ρ : Type} (engine : Expr → Except ε ρ) (collection ref : String) : Except ε ρ :=
  engine (delete collection ref)

/-- The result of `paginateDB` as the caller sees it. -/
def runPaginateDB {ε ρ : Type} (engine : Expr → Except ε ρ) (dbName : String)
    (size : Option Nat) : Except ε ρ :=
  engine (paginateDB dbName size)

/-- The result of `getDatabase` as the caller sees it. -/
def runGetDatabase {ε ρ : Type} (engine : Expr → Except ε ρ) (dbName : String) : Except ε ρ :=
  engine (getDatabase dbName)

/-!
## Projections used to state the claims
-/

/-- The `size` carried by the pagination wrapper of a submitted expression
(looking through the document-resolution map). -/
def Expr.pageSize : Expr → Option Nat
  | .Paginate _ n _ _ => some n
  | .MapGet s => s.pageSize
  | _ => none

/-- The `before` cursor carried by the pagination wrapper of a submitted
expression (looking through the document-resolution map). -/
def Expr.pageBefore : Expr → Option CursorVal
  | .Paginate _ _ b _ => some b
  | .MapGet s => s.pageBefore
  | _ => none

/-- The `after` cursor carried by the pagination wrapper of a submitted
expression (looking through the document-resolution map). -/
def Expr.pageAfter : Expr → Option CursorVal
  | .Paginate _ _ _ a => some a
  | .MapGet s => s.pageAfter
  | _ => none

/-- Whether a cursor option value is already in the engine's native
reference form (a query-expression value) or absent. -/
def CursorVal.nativeOrAbsent : CursorVal → Bool
  | .undefined => true
  | .expr _ => true
  | .composite _ _ => false

end Fauna

namespace Fauna

/-!
## General lemmas about the cursor normalization step
-/

/-- The normalization step never touches the `size` field of the options. -/
theorem normalizeCursors_size (o : Options) : (normalizeCursors o).size = o.size := by
  unfold normalizeCursors
  split
  · rfl
  · split <;> rfl

/-- The normalization step never touches the `term` field of the options. -/
theorem normalizeCursors_term (o : Options) : (normalizeCursors o).term = o.term := by
  unfold normalizeCursors
  split
  · rfl
  · split <;> rfl

/-- The normalization step never touches the `scope` field of the options. -/
theorem normalizeCursors_scope (o : Options) : (normalizeCursors o).scope = o.scope := by
  unfold normalizeCursors
  split
  · rfl
  · split <;> rfl

/-- A `before` cursor that fails the composite guard is passed through
unchanged. -/
theorem normalizeCursors_before_of_guard_false (o : Options)
    (h : o.before.compositeGuard = false) : (normalizeCursors o).before = o.before := by
  unfold normalizeCursors
  split
  · simp_all
  · split <;> rfl

/-- An `after` cursor that fails the composite guard is passed through
unchanged. -/
theorem normalizeCursors_after_of_guard_false (o : Options)
    (h : o.after.compositeGuard = false) : (normalizeCursors o).after = o.after := by
  unfold normalizeCursors
  split
  · rfl
  · split
    · simp_all
    · rfl

/-- A `before` cursor that passes the composite guard is rewritten with
`_buildRef`. -/
theorem normalizeCursors_before_of_guard_true (o : Options)
    (h : o.before.compositeGuard = true) :
    (normalizeCursors o).before = .expr (buildRef o.before) := by
  unfold normalizeCursors
  split
  · rfl
  · simp_all

/-- When `before` fails the composite guard and `after` passes it, `after` is
rewritten with `_buildRef`. -/
theorem normalizeCursors_after_of_guards (o : Options)
    (hb : o.before.compositeGuard = false) (ha : o.after.compositeGuard = true) :
    (normalizeCursors o).after = .expr (buildRef o.after) := by
  unfold normalizeCursors
  split
  · simp_all
  · simp_all

/-- A native-or-absent cursor value fails the composite guard. -/
theorem nativeOrAbsent_guard_false (c : CursorVal) (h : c.nativeOrAbsent = true) :
    c.compositeGuard = false := by
  cases c <;> simp_all [CursorVal.nativeOrAbsent, CursorVal.compositeGuard,
    CursorVal.truthy, CursorVal.collectionTruthy]

/-- The post-call options of `getAllDocsByIndex` are the cursor-normalized
options. -/
theorem getAllDocsByIndex_snd (index : String) (o : Options) :
    (getAllDocsByIndex index o).2 = normalizeCursors o := rfl

/-- The pagination wrapper of the expression submitted by
`getAllDocsByIndex` carries the normalized `before` cursor. -/
theorem pageBefore_getAllDocsByIndex (index : String) (o : Options) :
    ((getAllDocsByIndex index o).1).pageBefore = some ((normalizeCursors o).before) := rfl

/-- The pagination wrapper of the expression submitted by
`getAllDocsByIndex` carries the normalized `after` cursor. -/
theorem pageAfter_getAllDocsByIndex (index : String) (o : Options) :
    ((getAllDocsByIndex index o).1).pageAfter = some ((normalizeCursors o).after) := rfl

/-- The pagination wrapper of the expression submitted by
`getAllDocsByIndex` carries the size `options.size || this.size`. -/
theorem pageSize_getAllDocsByIndex (index : String) (o : Options) :
    ((getAllDocsByIndex index o).1).pageSize = some (jsNumOr o.size defaultSize) := by
  have h : ((getAllDocsByIndex index o).1).pageSize
      = some (jsNumOr (normalizeCursors o).size defaultSize) := rfl
  rw [h, normalizeCursors_size]

/-!
## The claims
-/

/-- Claim C1 is false on the code: with both cursors supplied in composite
form, the `else if` in `getAllDocsByIndex` skips the `after` cursor, so the
`after` cursor handed to the pagination wrapper is not the native reference
that the normalization rule would produce — it stays composite. -/
theorem claim_C1_counterexample :
    ¬ ((getAllDocsByIndex "idx"
          ⟨.composite "authors" "1", .composite "books" "2", none, none, none⟩).1).pageAfter
        = some (CursorVal.expr (buildRef (.composite "books" "2"))) := by
  intro h
  have h2 : (some (CursorVal.composite "books" "2") : Option CursorVal)
      = some (CursorVal.expr (buildRef (.composite "books" "2"))) := h
  simp [buildRef] at h2

/-- Claim C1 (amended): when both `before` and `after` are supplied in
composite `{collection, ref}` form (with a non-empty collection name), only
`before` is rewritten to the engine's native reference form before the query
is submitted; `after` is submitted unchanged, still in composite form. -/
theorem claim_C1_amended (index : String) (cb rb ca ra : String) (t : Option Opaque)
    (s : Option Nat) (sc : Option Opaque) (h : cb ≠ "") :
    ((getAllDocsByIndex index ⟨.composite cb rb, .composite ca ra, t, s, sc⟩).1).pageBefore
      = some (.expr (.Ref (.Collection cb) (.Str rb))) ∧
    ((getAllDocsByIndex index ⟨.composite cb rb, .composite ca ra, t, s, sc⟩).1).pageAfter
      = some (.composite ca ra) := by
  have hg : (CursorVal.composite cb rb).compositeGuard = true := by
    simp [CursorVal.compositeGuard, CursorVal.truthy, CursorVal.collectionTruthy, h]
  constructor
  · rw [pageBefore_getAllDocsByIndex]
    rw [normalizeCursors_before_of_guard_true _ hg]
    rfl
  · rw [pageAfter_getAllDocsByIndex]
    unfold normalizeCursors
    simp only [hg]
    simp

/-- Claim C1 (amended) at the concrete input of the counterexample. -/
theorem claim_C1_amended_witness :
    ((getAllDocsByIndex "idx"
        ⟨.composite "authors" "1", .composite "books" "2", none, none, none⟩).1).pageBefore
      = some (.expr (.Ref (.Collection "authors") (.Str "1"))) ∧
    ((getAllDocsByIndex "idx"
        ⟨.composite "authors" "1", .composite "books" "2", none, none, none⟩).1).pageAfter
      = some (.composite "books" "2") :=
  claim_C1_amended "idx" "authors" "1" "books" "2" none none none (by decide)

/-- Claim C2 is false on the code: `getAllDocsByIndex` assigns
`options.before = this._buildRef(options.before)` in place, so a call that
supplies a composite `before` cursor mutates the caller's options object. -/
theorem claim_C2_counterexample :
    (getAllDocsByIndex "idx" ⟨.composite "authors" "123", .undefined, none, none, none⟩).2
      ≠ (⟨.composite "authors" "123", .undefined, none, none, none⟩ : Options) := by
  intro h
  have hb : CursorVal.expr (buildRef (.composite "authors" "123"))
      = CursorVal.composite "authors" "123" := congrArg Options.before h
  cases hb

/-- Claim C2 (amended): the call has no effect beyond the single submission
except the in-place cursor rewriting; in particular, whenever neither
`before` nor `after` is a truthy value with a truthy `collection` field, the
caller's options object is left unchanged by the call. -/
theorem claim_C2_amended (index : String) (o : Options)
    (hb : o.before.compositeGuard = false) (ha : o.after.compositeGuard = false) :
    (getAllDocsByIndex index o).2 = o := by
  rw [getAllDocsByIndex_snd]
  unfold normalizeCursors
  simp [hb, ha]

/-- Claim C2 (amended) at a concrete input: empty options pass through
unmutated. -/
theorem claim_C2_amended_witness : (getAllDocsByIndex "idx" {}).2 = ({} : Options) :=
  claim_C2_amended "idx" {} rfl rfl

/-- Claim C3: for `getAllDocsByIndex("all_authors")` with no term, scope,
size, before, or after, the submitted expression is exactly the match on
index `"all_authors"`, wrapped in a pagination expression of size 64,
wrapped in the map that resolves each matched reference with `Get`. -/
theorem claim_C3_composed_expression :
    (getAllDocsByIndex "all_authors" {}).1 =
      .MapGet (.Paginate (.Match (.Index "all_authors" none) none) 64 .undefined .undefined) := rfl

/-- Claim C4: for every call with `before = {collection: "authors", ref: "123"}`
(and any index, after, term, size, scope), the `before` cursor handed to the
pagination wrapper is the native reference `Ref(Collection("authors"), "123")`
built by `_buildRef`. -/
theorem claim_C4_before_normalized (index : String) (a : CursorVal)
    (t : Option Opaque) (s : Option Nat) (sc : Option Opaque) :
    ((getAllDocsByIndex index ⟨.composite "authors" "123", a, t, s, sc⟩).1).pageBefore
      = some (.expr (.Ref (.Collection "authors") (.Str "123"))) := rfl

/-- Claim C5: a `before` or `after` cursor already in the engine's native
reference form (a query-expression value) or absent is passed through the
normalization step of `getAllDocsByIndex` unchanged, both in the post-call
options and in the pagination wrapper of the submitted expression; in
particular a reference produced by `_buildRef` passes through unchanged, so
the normalization is idempotent on native references. -/
theorem claim_C5_native_passthrough (index : String) (o : Options) :
    (o.before.nativeOrAbsent = true →
      (getAllDocsByIndex index o).2.before = o.before ∧
      ((getAllDocsByIndex index o).1).pageBefore = some o.before) ∧
    (o.after.nativeOrAbsent = true →
      (getAllDocsByIndex index o).2.after = o.after ∧
      ((getAllDocsByIndex index o).1).pageAfter = some o.after) := by
  constructor
  · intro h
    have hg := nativeOrAbsent_guard_false _ h
    have he := normalizeCursors_before_of_guard_false o hg
    exact ⟨by rw [getAllDocsByIndex_snd, he], by rw [pageBefore_getAllDocsByIndex, he]⟩
  · intro h
    have hg := nativeOrAbsent_guard_false _ h
    have he := normalizeCursors_after_of_guard_false o hg
    exact ⟨by rw [getAllDocsByIndex_snd, he], by rw [pageAfter_getAllDocsByIndex, he]⟩

/-- Claim C5 at a concrete input: a native reference supplied as `before`
(and an absent `after`) both pass through unchanged. -/
theorem claim_C5_native_passthrough_witness :
    ((getAllDocsByIndex "idx"
          ⟨.expr (.Ref (.Collection "a") (.Str "1")), .undefined, none, none, none⟩).2.before
        = CursorVal.expr (.Ref (.Collection "a") (.Str "1")) ∧
      ((getAllDocsByIndex "idx"
          ⟨.expr (.Ref (.Collection "a") (.Str "1")), .undefined, none, none, none⟩).1).pageBefore
        = some (CursorVal.expr (.Ref (.Collection "a") (.Str "1")))) ∧
    ((getAllDocsByIndex "idx"
          ⟨.expr (.Ref (.Collection "a") (.Str "1")), .undefined, none, none, none⟩).2.after
        = CursorVal.undefined ∧
      ((getAllDocsByIndex "idx"
          ⟨.expr (.Ref (.Collection "a") (.Str "1")), .undefined, none, none, none⟩).1).pageAfter
        = some CursorVal.undefined) :=
  ⟨(claim_C5_native_passthrough "idx" _).1 rfl,
   (claim_C5_native_passthrough "idx" _).2 rfl⟩

/-- Claim C6: every page request that omits `size` — in `getAllDocsByIndex`,
`getAllRefsByIndex`, and `paginateDB` — submits a pagination expression
carrying exactly the default page size 64 (`this.size`). -/
theorem claim_C6_default_size (index dbName : String) (o : Options) (h : o.size = none) :
    ((getAllDocsByIndex index o).1).pageSize = some 64 ∧
    (getAllRefsByIndex index none).pageSize = some 64 ∧
    (paginateDB dbName none).pageSize = some 64 := by
  refine ⟨?_, rfl, rfl⟩
  rw [pageSize_getAllDocsByIndex, h]
  rfl

/-- Claim C6 at a concrete input: the `"all_authors"` request with empty
options gets page size 64 in all three operations. -/
theorem claim_C6_default_size_witness :
    ((getAllDocsByIndex "all_authors" {}).1).pageSize = some 64 ∧
    (getAllRefsByIndex "all_authors" none).pageSize = some 64 ∧
    (paginateDB "db" none).pageSize = some 64 :=
  claim_C6_default_size "all_authors" "db" {} rfl

/-- Claim C7: for every collection and every single (non-array) document,
`create(c, d)` builds exactly the same query expression as `create(c, [d])`,
because `create` wraps a non-array argument as `[docs]` before mapping. -/
theorem claim_C7_single_bulk_unification (collection : String) (d : Doc) :
    create collection (.single d) = create collection (.array [d]) := rfl

/-- Claim C8: every wrapper operation returns the engine's answer for its
built expression unchanged; when the engine rejects, the operation's result
is that same rejection — nothing is caught, wrapped, transformed, retried,
or generated locally. -/
theorem claim_C8_rejection_passthrough {ε ρ : Type} (engine : Expr → Except ε ρ) (err : ε)
    (h : ∀ e : Expr, engine e = Except.error err) :
    (∀ name, runCreateDB engine name = Except.error err) ∧
    (∀ dbName, runCreateServer engine dbName = Except.error err) ∧
    (∀ name, runCreateCollection engine name = Except.error err) ∧
    (∀ name src terms values, runCreateIndex engine name src terms values = Except.error err) ∧
    (∀ collection docs, runCreate engine collection docs = Except.error err) ∧
    (∀ collection touples, runCreateWithCustomID engine collection touples = Except.error err) ∧
    (∀ collection ref, runGet engine collection ref = Except.error err) ∧
    (∀ index value, runGetMatch engine index value = Except.error err) ∧
    (∀ index size, runGetAllRefsByIndex engine index size = Except.error err) ∧
    (∀ index options, runGetAllDocsByIndex engine index options = Except.error err) ∧
    (∀ collection ref data, runUpdate engine collection ref data = Except.error err) ∧
    (∀ collection ref data, runReplace engine collection ref data = Except.error err) ∧
    (∀ collection ref, runDelete engine collection ref = Except.error err) ∧
    (∀ dbName size, runPaginateDB engine dbName size = Except.error err) ∧
    (∀ dbName, runGetDatabase engine dbName = Except.error err) :=
  ⟨fun _ => h _, fun _ => h _, fun _ => h _, fun _ _ _ _ => h _, fun _ _ => h _,
   fun _ _ => h _, fun _ _ => h _, fun _ _ => h _, fun _ _ => h _, fun _ _ => h _,
   fun _ _ _ => h _, fun _ _ _ => h _, fun _ _ => h _, fun _ _ => h _, fun _ => h _⟩

/-- Claim C8 at a concrete engine that rejects everything with `"boom"`:
`createDB` surfaces exactly that rejection. -/
theorem claim_C8_rejection_passthrough_witness :
    runCreateDB (fun _ : Expr => (Except.error "boom" : Except String Unit)) "db"
      = Except.error "boom" :=
  (claim_C8_rejection_passthrough (fun _ : Expr => (Except.error "boom" : Except String Unit))
    "boom" (fun _ => rfl)).1 "db"

/-- Claim C9 is false on the code in its second half: when both cursors are
composite, the `after` cursor is submitted to the engine still in composite
`{collection, ref}` form, unconverted. -/
theorem claim_C9_counterexample :
    (((getAllDocsByIndex "idx2"
        ⟨.composite "users" "7", .composite "posts" "8", none, none, none⟩).1).pageAfter).map
      CursorVal.isComposite = some true := rfl

/-- Claim C9 (amended): at most one of the two cursors undergoes
composite-to-native rewriting per call; a composite `before` (passing the
truthiness guard) is always converted before submission, while a composite
`after` is converted only when `before` fails the guard — if both are
composite, `after` is submitted in composite form. -/
theorem claim_C9_amended (index : String) (o : Options) :
    ((getAllDocsByIndex index o).2.before ≠ o.before →
      (getAllDocsByIndex index o).2.after = o.after) ∧
    ((getAllDocsByIndex index o).2.after ≠ o.after →
      (getAllDocsByIndex index o).2.before = o.before) ∧
    (o.before.compositeGuard = true →
      ((getAllDocsByIndex index o).1).pageBefore = some (.expr (buildRef o.before))) ∧
    (o.before.compositeGuard = false → o.after.compositeGuard = true →
      ((getAllDocsByIndex index o).1).pageAfter = some (.expr (buildRef o.after))) := by
  refine ⟨?_, ?_, ?_, ?_⟩
  · intro hne
    rw [getAllDocsByIndex_snd] at *
    unfold normalizeCursors at *
    split
    · rfl
    · split
      · simp_all
      · rfl
  · intro hne
    rw [getAllDocsByIndex_snd] at *
    unfold normalizeCursors at *
    split
    · simp_all
    · split
      · rfl
      · rfl
  · intro hg
    rw [pageBefore_getAllDocsByIndex, normalizeCursors_before_of_guard_true _ hg]
  · intro hgb hga
    rw [pageAfter_getAllDocsByIndex, normalizeCursors_after_of_guards _ hgb hga]

/-- Claim C9 (amended) at concrete inputs: a composite `before` is converted,
a composite `after` (with `before` absent) is converted, and in a call that
rewrites `before` the `after` cursor is untouched. -/
theorem claim_C9_amended_witness :
    ((getAllDocsByIndex "i" ⟨.composite "users" "7", .composite "posts" "8", none, none, none⟩).1).pageBefore
      = some (.expr (buildRef (.composite "users" "7"))) ∧
    ((getAllDocsByIndex "i" ⟨.undefined, .composite "posts" "8", none, none, none⟩).1).pageAfter
      = some (.expr (buildRef (.composite "posts" "8"))) ∧
    (getAllDocsByIndex "i" ⟨.composite "users" "7", .composite "posts" "8", none, none, none⟩).2.after
      = CursorVal.composite "posts" "8" :=
  ⟨(claim_C9_amended "i" ⟨.composite "users" "7", .composite "posts" "8", none, none, none⟩).2.2.1 rfl,
   (claim_C9_amended "i" ⟨.undefined, .composite "posts" "8", none, none, none⟩).2.2.2 rfl rfl,
   (claim_C9_amended "i" ⟨.composite "users" "7", .composite "posts" "8", none, none, none⟩).1
     (by intro hc; cases hc)⟩

/-- Claim C10: a falsy supplied `size` such as 0 — in `getAllDocsByIndex`,
`getAllRefsByIndex`, and `paginateDB` — selects the default page size 64,
because `size || this.size` detects presence by JS truthiness. -/
theorem claim_C10_falsy_size_default (index dbName : String) (o : Options)
    (h : o.size = some 0) :
    ((getAllDocsByIndex index o).1).pageSize = some 64 ∧
    (getAllRefsByIndex index (some 0)).pageSize = some 64 ∧
    (paginateDB dbName (some 0)).pageSize = some 64 := by
  refine ⟨?_, rfl, rfl⟩
  rw [pageSize_getAllDocsByIndex, h]
  rfl

/-- Claim C10 at a concrete input: a request with `size = 0` gets page size
64 in all three operations. -/
theorem claim_C10_falsy_size_default_witness :
    ((getAllDocsByIndex "all_authors" ⟨.undefined, .undefined, none, some 0, none⟩).1).pageSize = some 64 ∧
    (getAllRefsByIndex "all_authors" (some 0)).pageSize = some 64 ∧
    (paginateDB "db" (some 0)).pageSize = some 64 :=
  claim_C10_falsy_size_default "all_authors" "db" ⟨.undefined, .undefined, none, some 0, none⟩ rfl

end Fauna
